import Mathlib

/-!
Verification of `ChordKey/KeyCommon.py`: label resolution, geometry
transforms, the per-key color cache, id splitting, sticky-behavior
parsing and layer-index extraction, shallowly embedded in Lean.

Python dicts with integer keys are embedded as association lists
`List (Nat × String)` looked up by first match (dict keys are unique, so
first-match lookup agrees with dict lookup); Python floats are embedded
as rationals; fallible operations return `Option` / `Except`.
-/

namespace ChordKey

namespace Modifiers

/-- Modelled from the spec: `Modifiers` lives in `ChordKey/utils.py`, which is
not under `src/`.  The spec's legacy-slot semantics fix the bit values: slot 1
is the Shift slot, slot 2 the CapsLock slot, slot 128 the AltGr slot and slot
129 the Shift+AltGr slot, so `SHIFT = 1`, `CAPS = 2`, `ALTGR = 128`. -/
def SHIFT : Nat := 1

/-- Modelled from the spec: the CapsLock modifier bit (see `SHIFT`). -/
def CAPS : Nat := 2

/-- Modelled from the spec: the AltGr modifier bit (see `SHIFT`). -/
def ALTGR : Nat := 128

end Modifiers

/-- First-match lookup in an association list, embedding `dict.get` /
`key in dict` on a Python dict with integer keys. -/
def lookupLabel (labels : List (Nat × String)) (k : Nat) : Option String :=
  (labels.find? (fun p => p.1 == k)).map Prod.snd

/-- Embedding of `KeyCommon.configure_label` (KeyCommon.py lines 159-191).
`LM` is `LABEL_MODIFIERS` from `ChordKey/utils.py` (not under `src/`),
kept as a parameter: the spec only calls it "a fixed mask".  The function
returns the label that the Python code assigns to `self.label`. -/
def configure_label (LM : Nat) (labels : List (Nat × String)) (mod_mask : Nat) :
    String :=
  -- label = labels.get(mod_mask); if None: labels.get(mod_mask & LABEL_MODIFIERS)
  let label1 : Option String :=
    match lookupLabel labels mod_mask with
    | some s => some s
    | none => lookupLabel labels (mod_mask &&& LM)
  -- legacy fallback for 0.98 behavior
  let label2 : Option String :=
    match label1 with
    | some s => some s
    | none =>
      if mod_mask &&& Modifiers.SHIFT ≠ 0 then
        if mod_mask &&& Modifiers.ALTGR ≠ 0 ∧ (lookupLabel labels 129).isSome then
          lookupLabel labels 129
        else if (lookupLabel labels 1).isSome then
          lookupLabel labels 1
        else if (lookupLabel labels 2).isSome then
          lookupLabel labels 2
        else
          none
      else if mod_mask &&& Modifiers.ALTGR ≠ 0 ∧ (lookupLabel labels 128).isSome then
        lookupLabel labels 128
      else if mod_mask &&& Modifiers.CAPS ≠ 0 then
        if (lookupLabel labels 2).isSome then
          lookupLabel labels 2
        else if (lookupLabel labels 1).isSome then
          lookupLabel labels 1
        else
          none
      else
        none
  -- if label is None: label = labels.get(0); if label is None: label = ""
  let label3 : Option String :=
    match label2 with
    | some s => some s
    | none => lookupLabel labels 0
  label3.getD ""

/-- The legacy fallback chain exactly as the spec words it (step 3 of the
priority list), used by `resolve_label_spec`. -/
def legacy_slot_spec (labels : List (Nat × String)) (mask : Nat) : Option String :=
  if mask &&& Modifiers.SHIFT ≠ 0 then
    if mask &&& Modifiers.ALTGR ≠ 0 ∧ (lookupLabel labels 129).isSome then
      lookupLabel labels 129
    else if (lookupLabel labels 1).isSome then
      lookupLabel labels 1
    else if (lookupLabel labels 2).isSome then
      lookupLabel labels 2
    else
      none
  else if mask &&& Modifiers.ALTGR ≠ 0 ∧ (lookupLabel labels 128).isSome then
    lookupLabel labels 128
  else if mask &&& Modifiers.CAPS ≠ 0 then
    if (lookupLabel labels 2).isSome then
      lookupLabel labels 2
    else if (lookupLabel labels 1).isSome then
      lookupLabel labels 1
    else
      none
  else
    none

/-- Label resolution as the spec states it: an ordered candidate list,
first match wins, empty string as the final default. -/
def resolve_label_spec (LM : Nat) (labels : List (Nat × String)) (mask : Nat) :
    String :=
  (([lookupLabel labels mask,
     lookupLabel labels (mask &&& LM),
     legacy_slot_spec labels mask,
     lookupLabel labels 0].findSome? id).getD "")

/-- The spec's example label map `{0: "a", 1: "b", 2: "c", 128: "d", 129: "e"}`. -/
def exampleLabels : List (Nat × String) :=
  [(0, "a"), (1, "b"), (2, "c"), (128, "d"), (129, "e")]

/-- Logical rectangle with origin `(x, y)`, width `w` and height `h`.
Python floats are embedded as rationals. -/
@[ext]
structure Rect where
  x : ℚ
  y : ℚ
  w : ℚ
  h : ℚ
  deriving DecidableEq

/-- Modelled from the spec: `Rect.deflate` lives in `ChordKey/utils.py`, which
is not under `src/`.  Per the spec, a deflate shrinks the rectangle
symmetrically toward its center and clamps width and height at zero (a
deflate amount of at least half the corresponding dimension yields a zero
dimension, never a negative one). -/
def Rect.deflate (r : Rect) (dx dy : ℚ) : Rect :=
  { x := r.x + dx, y := r.y + dy,
    w := max 0 (r.w - 2 * dx), h := max 0 (r.h - 2 * dy) }

/-- Embedding of `RectKeyCommon._apply_key_size` (KeyCommon.py lines 334-348).
`key_size` is `config.theme_settings.key_size`, passed as a parameter
(`size = key_size / 100.0`).  The Python ifs run in sequence, so the second
one reads the possibly-reassigned `by`. -/
def _apply_key_size (key_size : ℚ) (rect : Rect) : Rect :=
  let size := key_size / 100
  let bx0 := rect.w * (1 - size) / 2
  let by0 := rect.h * (1 - size) / 2
  -- keys with aspect < 1.0: if rect.h > rect.w: by = bx
  let by1 := if rect.w < rect.h then bx0 else by0
  -- keys with aspect > 1.0: if rect.h < rect.w: bx = by
  let bx1 := if rect.h < rect.w then by1 else bx0
  rect.deflate bx1 by1

/-- Embedding of `RectKeyCommon.get_rect` (KeyCommon.py lines 312-332).
`key_style` is `config.theme_settings.key_style` and `rect` is the result of
`get_fullsize_rect` (the identity pass-through of the nominal rect).  The
source also evaluates `rect.w - 2 * k` and `rect.h - k` in both pressed
branches, but these are bare expression statements whose values are
discarded, so width and height are unchanged by the pressed-offset stage. -/
def get_rect (key_style : String) (key_size : ℚ) (pressed : Bool) (rect : Rect) :
    Rect :=
  let rect1 :=
    if pressed then
      if key_style == "gradient" then
        let k : ℚ := 0.2
        { rect with x := rect.x + k, y := rect.y + 2 * k }
      else if key_style == "dish" then
        let k : ℚ := 0.45
        { rect with x := rect.x + k, y := rect.y + 2 * k }
      else rect
    else rect
  _apply_key_size key_size rect1

/-- Embedding of `RectKeyCommon.get_unpressed_rect` (KeyCommon.py
lines 304-310). -/
def get_unpressed_rect (key_size : ℚ) (rect : Rect) : Rect :=
  _apply_key_size key_size rect

/-- An RGBA color.  The source's 4-element Python float list is embedded as a
4-field record; a 4-element list is non-empty and hence always truthy, so a
cached color never re-triggers the `if not rgba` miss branch. -/
structure Rgba where
  r : ℚ
  g : ℚ
  b : ℚ
  a : ℚ
  deriving DecidableEq

/-- The six boolean interaction flags read by `_get_color`. -/
structure ColorFlags where
  prelight : Bool
  pressed : Bool
  active : Bool
  locked : Bool
  sensitive : Bool
  scanned : Bool
  deriving DecidableEq

/-- The cache key tuple built on KeyCommon.py lines 280-282:
the element (color role) string plus the six interaction flags. -/
abbrev ColorKey := String × Bool × Bool × Bool × Bool × Bool × Bool

/-- The tuple `(element, prelight, pressed, active, locked, sensitive,
scanned)` from KeyCommon.py lines 280-282. -/
def color_key (element : String) (f : ColorFlags) : ColorKey :=
  (element, f.prelight, f.pressed, f.active, f.locked, f.sensitive, f.scanned)

/-- Per-key mutable state touched by `_get_color`: the `colors` cache dict
(an association list looked up by first match), plus an instrumentation
counter that records how many times the theme lookup
`color_scheme.get_key_rgba` has been invoked.  The counter is not in the
source; it only observes lookup calls so that cache theorems can count
them. -/
structure ColorState where
  colors : List (ColorKey × Rgba)
  lookups : Nat

/-- Embedding of `RectKeyCommon._get_color` (KeyCommon.py lines 279-292),
returning the rgba together with the updated state.  `color_scheme` is the
external theme collaborator; modelled from the spec: its code is not under
`src/`, and when the collaborator is present its `get_key_rgba` yields an
RGBA for every element (role) string, so "the theme collaborator returns
nothing" is the case `color_scheme = none`. -/
def _get_color (color_scheme : Option (String → Rgba)) (f : ColorFlags)
    (element : String) (st : ColorState) : Rgba × ColorState :=
  let ck := color_key element f
  match (st.colors.find? (fun p => p.1 == ck)).map Prod.snd with
  | some rgba => (rgba, st)
  | none =>
    let rgba :=
      match color_scheme with
      | some get_key_rgba => get_key_rgba element
      | none =>
        if element == "label" then ⟨0, 0, 0, 1⟩ else ⟨1, 1, 1, 1⟩
    (rgba, { colors := (color_key element f, rgba) :: st.colors,
             lookups := st.lookups + if color_scheme.isSome then 1 else 0 })

/-- Python's `str.split(".")` on the character level: always yields a
non-empty list of segments, and splitting the empty string yields `[[]]`
(so indexing the result at 0 is total, as in Python). -/
def pySplitDot : List Char → List (List Char)
  | [] => [[]]
  | c :: rest =>
    if c = '.' then [] :: pySplitDot rest
    else
      match pySplitDot rest with
      | [] => [[c]]
      | x :: xs => (c :: x) :: xs

/-- Embedding of `KeyCommon.split_id` (KeyCommon.py lines 208-219):
`theme_id = value` and `id = value.split(".")[0]`. -/
def split_id (value : String) : String × String :=
  (value, String.mk ((pySplitDot value.toList).headD []))

/-- Embedding of `KeyCommon.set_id` (KeyCommon.py lines 205-206): the pair
`(theme_id, id)` this assignment stores on the key. -/
def set_id (value : String) : String × String :=
  split_id value

namespace StickyBehavior

/-- Embedding of `StickyBehavior.CYCLE` (KeyCommon.py lines 49-54). -/
def CYCLE : Nat := 0

/-- Embedding of `StickyBehavior.DOUBLE_CLICK` (KeyCommon.py lines 49-54). -/
def DOUBLE_CLICK : Nat := 1

/-- Embedding of `StickyBehavior.LATCH_ONLY` (KeyCommon.py lines 49-54). -/
def LATCH_ONLY : Nat := 2

/-- Embedding of `StickyBehavior.LOCK_ONLY` (KeyCommon.py lines 49-54). -/
def LOCK_ONLY : Nat := 3

/-- Embedding of `StickyBehavior.values` (KeyCommon.py lines 56-60). -/
def values : List (String × Nat) :=
  [("cycle", CYCLE), ("dblclick", DOUBLE_CLICK),
   ("latch", LATCH_ONLY), ("lock", LOCK_ONLY)]

/-- Embedding of `StickyBehavior.from_string` (KeyCommon.py lines 62-65):
a Python dict lookup that raises `KeyError` on a missing key, embedded as an
`Option`. -/
def from_string (s : String) : Option Nat :=
  (values.find? (fun p => p.1 == s)).map Prod.snd

end StickyBehavior

/-- The typed configuration error of the spec's error taxonomy. -/
inductive ConfigurationError where
  | invalid_sticky_behavior (token : String)
  deriving DecidableEq

/-- Modelled from the spec: the assignment site that parses a sticky-behavior
token is not under `src/` (only `StickyBehavior.from_string` is); per the
spec, an unrecognized token is surfaced as a typed `ConfigurationError` at
the point of assignment, with no silent default. -/
def assign_sticky_behavior (s : String) : Except ConfigurationError Nat :=
  match StickyBehavior.from_string s with
  | some v => Except.ok v
  | none => Except.error (ConfigurationError.invalid_sticky_behavior s)

/-- Embedding of `KeyCommon.is_layer_button` (KeyCommon.py lines 221-222):
`self.id.startswith("layer")`, on the character level. -/
def is_layer_button (id : String) : Bool :=
  id.toList.take 5 == "layer".toList

/-- Conversion of a digit string to a number, the core of Python's built-in
`int()`: fails on the empty string and on any non-digit character. -/
def digits_to_int (l : List Char) : Option Int :=
  if l ≠ [] ∧ l.all Char.isDigit then
    some ((l.foldl (fun a c => a * 10 + (c.toNat - '0'.toNat)) 0 : Nat) : Int)
  else none

/-- Python's built-in `int()` on a string: an optional sign followed by at
least one decimal digit.  (Whitespace trimming, underscore grouping and
non-ASCII digits, which Python also accepts, are not modelled; they do not
affect the claims.) -/
def python_int (s : String) : Option Int :=
  match s.toList with
  | [] => none
  | c :: rest =>
    if c = '+' then digits_to_int rest
    else if c = '-' then (digits_to_int rest).map (fun n => -n)
    else digits_to_int (c :: rest)

/-- The two ways `KeyCommon.get_layer_index` can fail: the
`assert(self.is_layer_button())` (a contract violation, per the spec caught
only in debug builds) and the `int()` conversion (Python `ValueError`). -/
inductive LayerIndexError where
  | contract_violation
  | value_error
  deriving DecidableEq

/-- Embedding of `KeyCommon.get_layer_index` (KeyCommon.py lines 237-239):
`assert(self.is_layer_button())`, then `int(self.id[5:])`. -/
def get_layer_index (id : String) : Except LayerIndexError Int :=
  if is_layer_button id then
    match python_int (String.mk (id.toList.drop 5)) with
    | some n => Except.ok n
    | none => Except.error LayerIndexError.value_error
  else Except.error LayerIndexError.contract_violation

/-- C1: label resolution follows the spec's exact first-match priority:
exact mask entry, then masked entry, then the legacy slot chain, then slot 0,
then the empty string — `configure_label` coincides with the spec-ordered
candidate list `resolve_label_spec` on every input (in particular an
exact-mask entry wins over any legacy slot), and the spec's concrete
examples hold for every value of `LABEL_MODIFIERS`. -/
theorem C1_label_resolution_priority :
    (∀ LM labels mask, configure_label LM labels mask = resolve_label_spec LM labels mask)
    ∧ (∀ LM, configure_label LM exampleLabels Modifiers.SHIFT = "b")
    ∧ (∀ LM, configure_label LM exampleLabels (Modifiers.SHIFT ||| Modifiers.ALTGR) = "e")
    ∧ (∀ LM, configure_label LM exampleLabels Modifiers.ALTGR = "d")
    ∧ (∀ LM, configure_label LM [(0, "a"), (2, "c")] Modifiers.CAPS = "c")
    ∧ (∀ LM, configure_label LM [] 0 = "") := by
  refine ⟨?_, fun _ => rfl, fun _ => rfl, fun _ => rfl, fun _ => rfl, fun _ => rfl⟩
  intro LM labels mask
  cases h1 : lookupLabel labels mask with
  | some s => simp [configure_label, resolve_label_spec, List.findSome?, h1]
  | none =>
    cases h2 : lookupLabel labels (mask &&& LM) with
    | some s => simp [configure_label, resolve_label_spec, List.findSome?, h1, h2]
    | none =>
      by_cases hs : mask &&& Modifiers.SHIFT ≠ 0 <;>
      by_cases ha : mask &&& Modifiers.ALTGR ≠ 0 <;>
      by_cases hc : mask &&& Modifiers.CAPS ≠ 0 <;>
      cases h129 : lookupLabel labels 129 <;>
      cases hsl1 : lookupLabel labels 1 <;>
      cases hsl2 : lookupLabel labels 2 <;>
      cases h128 : lookupLabel labels 128 <;>
      cases h0 : lookupLabel labels 0 <;>
      simp [configure_label, resolve_label_spec, legacy_slot_spec, List.findSome?,
            h1, h2, hs, ha, hc, h129, hsl1, hsl2, h128, h0]

/-- C2: label resolution is total — for every label map and every modifier
mask the result is a string that is either the empty string or one of the
map's stored labels, and on the empty map it is always the empty string. -/
theorem C2_label_resolution_total :
    (∀ LM labels mask, configure_label LM labels mask = "" ∨
        ∃ k, lookupLabel labels k = some (configure_label LM labels mask))
    ∧ (∀ LM mask, configure_label LM [] mask = "") := by
  constructor
  · intro LM labels mask
    cases h1 : lookupLabel labels mask with
    | some s => right; exact ⟨mask, by simp [configure_label, h1]⟩
    | none =>
      cases h2 : lookupLabel labels (mask &&& LM) with
      | some s => right; exact ⟨mask &&& LM, by simp [configure_label, h1, h2]⟩
      | none =>
        by_cases hs : mask &&& Modifiers.SHIFT ≠ 0 <;>
        by_cases ha : mask &&& Modifiers.ALTGR ≠ 0 <;>
        by_cases hc : mask &&& Modifiers.CAPS ≠ 0 <;>
        cases h129 : lookupLabel labels 129 <;>
        cases hsl1 : lookupLabel labels 1 <;>
        cases hsl2 : lookupLabel labels 2 <;>
        cases h128 : lookupLabel labels 128 <;>
        cases h0 : lookupLabel labels 0 <;>
        simp [configure_label, h1, h2, hs, ha, hc, h129, hsl1, hsl2, h128, h0] <;>
        first
        | exact Or.inl rfl
        | (right; first
            | exact ⟨129, h129⟩
            | exact ⟨1, hsl1⟩
            | exact ⟨2, hsl2⟩
            | exact ⟨128, h128⟩
            | exact ⟨0, h0⟩)
  · intro LM mask
    by_cases hs : mask &&& Modifiers.SHIFT ≠ 0 <;>
    by_cases ha : mask &&& Modifiers.ALTGR ≠ 0 <;>
    by_cases hc : mask &&& Modifiers.CAPS ≠ 0 <;>
    simp [configure_label, lookupLabel, hs, ha, hc]

/-- C3: when `pressed` is true, `get_rect` shifts the fullsize rectangle's
origin by `(+0.2, +0.4)` for the `gradient` style and by `(+0.45, +0.9)` for
the `dish` style before the key-size shrink stage, leaving width and height
unchanged by that stage; for any other style, or when `pressed` is false,
`get_rect` coincides with `get_unpressed_rect`. -/
theorem C3_pressed_offset :
    (∀ ks rect, get_rect "gradient" ks true rect =
        _apply_key_size ks ⟨rect.x + 0.2, rect.y + 0.4, rect.w, rect.h⟩)
    ∧ (∀ ks rect, get_rect "dish" ks true rect =
        _apply_key_size ks ⟨rect.x + 0.45, rect.y + 0.9, rect.w, rect.h⟩)
    ∧ (∀ style ks rect, style ≠ "gradient" → style ≠ "dish" →
        get_rect style ks true rect = get_unpressed_rect ks rect)
    ∧ (∀ style ks rect, get_rect style ks false rect = get_unpressed_rect ks rect) := by
  refine ⟨fun ks rect => ?_, fun ks rect => ?_,
          fun style ks rect hg hd => ?_, fun style ks rect => rfl⟩
  · norm_num [get_rect]
  · norm_num [get_rect]
    rw [if_neg (show ¬ ("dish" : String) = "gradient" by decide)]
  · simp [get_rect, get_unpressed_rect, hg, hd]

/-- C3 witness: a concrete style that is neither `gradient` nor `dish`
takes the no-offset path. -/
theorem C3_pressed_offset_witness :
    get_rect "flat" 100 true ⟨0, 0, 2, 1⟩ = get_unpressed_rect 100 ⟨0, 0, 2, 1⟩ :=
  C3_pressed_offset.2.2.1 "flat" 100 ⟨0, 0, 2, 1⟩ (by decide) (by decide)

/-- C4: for a rectangle with non-negative width and height and any
`key_size ∈ (0, 100]`, the key-size shrink stage never increases width or
height, and at `key_size = 100` it returns the rectangle unchanged. -/
theorem C4_shrink_monotone (key_size : ℚ) (rect : Rect)
    (hw : 0 ≤ rect.w) (hh : 0 ≤ rect.h)
    (h0 : 0 < key_size) (h100 : key_size ≤ 100) :
    (_apply_key_size key_size rect).w ≤ rect.w
    ∧ (_apply_key_size key_size rect).h ≤ rect.h
    ∧ (key_size = 100 → _apply_key_size key_size rect = rect) := by
  have hs : 0 ≤ 1 - key_size / 100 := by linarith
  have hbx : 0 ≤ rect.w * (1 - key_size / 100) / 2 :=
    div_nonneg (mul_nonneg hw hs) (by norm_num)
  have hby : 0 ≤ rect.h * (1 - key_size / 100) / 2 :=
    div_nonneg (mul_nonneg hh hs) (by norm_num)
  refine ⟨?_, ?_, ?_⟩
  · simp only [_apply_key_size, Rect.deflate]
    split_ifs <;> exact max_le hw (by linarith)
  · simp only [_apply_key_size, Rect.deflate]
    split_ifs <;> exact max_le hh (by linarith)
  · rintro rfl
    have hx : rect.w * (1 - (100 : ℚ) / 100) / 2 = 0 := by norm_num
    have hy : rect.h * (1 - (100 : ℚ) / 100) / 2 = 0 := by norm_num
    simp only [_apply_key_size, Rect.deflate, hx, hy]
    split_ifs <;>
      (ext <;> simp [max_eq_right, hw, hh])

/-- C4 witness: concrete instances at `key_size = 50` and `key_size = 100`. -/
theorem C4_shrink_monotone_witness :
    ((_apply_key_size 50 ⟨0, 0, 4, 2⟩).w ≤ (4 : ℚ)
      ∧ (_apply_key_size 50 ⟨0, 0, 4, 2⟩).h ≤ (2 : ℚ))
    ∧ _apply_key_size 100 ⟨0, 0, 4, 2⟩ = ⟨0, 0, 4, 2⟩ :=
  ⟨⟨(C4_shrink_monotone 50 ⟨0, 0, 4, 2⟩ (by norm_num) (by norm_num)
      (by norm_num) (by norm_num)).1,
    (C4_shrink_monotone 50 ⟨0, 0, 4, 2⟩ (by norm_num) (by norm_num)
      (by norm_num) (by norm_num)).2.1⟩,
   (C4_shrink_monotone 100 ⟨0, 0, 4, 2⟩ (by norm_num) (by norm_num)
      (by norm_num) (by norm_num)).2.2 rfl⟩

/-- C5: aspect coupling in the shrink stage — for a rectangle taller than
wide both deflate amounts equal the width-derived value, for one wider than
tall both equal the height-derived value, and for a square the two amounts
stay independent but are equal anyway. -/
theorem C5_aspect_coupling (key_size : ℚ) (rect : Rect) :
    (rect.w < rect.h → _apply_key_size key_size rect =
        rect.deflate (rect.w * (1 - key_size / 100) / 2)
          (rect.w * (1 - key_size / 100) / 2))
    ∧ (rect.h < rect.w → _apply_key_size key_size rect =
        rect.deflate (rect.h * (1 - key_size / 100) / 2)
          (rect.h * (1 - key_size / 100) / 2))
    ∧ (rect.w = rect.h →
        _apply_key_size key_size rect =
          rect.deflate (rect.w * (1 - key_size / 100) / 2)
            (rect.h * (1 - key_size / 100) / 2)
        ∧ rect.w * (1 - key_size / 100) / 2 = rect.h * (1 - key_size / 100) / 2) := by
  refine ⟨fun hlt => ?_, fun hgt => ?_, fun heq => ⟨?_, by rw [heq]⟩⟩
  · have h2 : ¬ rect.h < rect.w := not_lt.mpr hlt.le
    simp [_apply_key_size, hlt, h2]
  · have h2 : ¬ rect.w < rect.h := not_lt.mpr hgt.le
    simp [_apply_key_size, hgt, h2]
  · simp [_apply_key_size, heq, lt_irrefl]

/-- C5 witness: a tall rectangle uses the width-derived amount for both
deflate parameters. -/
theorem C5_aspect_coupling_witness :
    _apply_key_size 50 ⟨0, 0, 1, 2⟩ =
      Rect.deflate ⟨0, 0, 1, 2⟩ (1 * (1 - 50 / 100) / 2) (1 * (1 - 50 / 100) / 2) :=
  (C5_aspect_coupling 50 ⟨0, 0, 1, 2⟩).1 (by norm_num)

/-- Helper: a call whose cache key is present returns the cached value and
leaves the state untouched. -/
lemma get_color_hit (scheme : Option (String → Rgba)) (f : ColorFlags)
    (element : String) (st : ColorState) (rgba : Rgba)
    (h : (st.colors.find? (fun p => p.1 == color_key element f)).map Prod.snd =
        some rgba) :
    _get_color scheme f element st = (rgba, st) := by
  simp [_get_color, h]

/-- Helper: after any call, the cache of the resulting state maps the call's
cache key to the returned value. -/
lemma get_color_cached (scheme : Option (String → Rgba)) (f : ColorFlags)
    (element : String) (st : ColorState) :
    (((_get_color scheme f element st).2.colors.find?
        (fun p => p.1 == color_key element f)).map Prod.snd) =
      some (_get_color scheme f element st).1 := by
  cases h : (st.colors.find? (fun p => p.1 == color_key element f)).map Prod.snd with
  | some rgba => simp [_get_color, h]
  | none => simp [_get_color, h, List.find?_cons]

/-- C6: on a cache miss, `_get_color` consults the theme collaborator when it
is present; when the collaborator is absent it stores and returns the
built-in default — opaque black `(0,0,0,1)` for the `label` role and opaque
white `(1,1,1,1)` for any other role — so the result is always a defined
RGBA value. -/
theorem C6_color_defaults (g : String → Rgba) (f : ColorFlags)
    (element : String) (st : ColorState)
    (hmiss : st.colors.find? (fun p => p.1 == color_key element f) = none) :
    ((_get_color none f element st).1 =
        if element == "label" then ⟨0, 0, 0, 1⟩ else ⟨1, 1, 1, 1⟩)
    ∧ ((_get_color none f element st).2.colors =
        (color_key element f,
          if element == "label" then (⟨0, 0, 0, 1⟩ : Rgba) else ⟨1, 1, 1, 1⟩)
          :: st.colors)
    ∧ ((_get_color (some g) f element st).1 = g element)
    ∧ ((_get_color (some g) f element st).2.colors =
        (color_key element f, g element) :: st.colors) := by
  refine ⟨?_, ?_, ?_, ?_⟩ <;> simp [_get_color, hmiss]

/-- C6 witness: on an empty cache and no theme collaborator, the `label` role
resolves to opaque black and the `fill` role to opaque white, both stored. -/
theorem C6_color_defaults_witness :
    ((_get_color none ⟨false, false, false, false, false, false⟩ "label"
        ⟨[], 0⟩).1 = ⟨0, 0, 0, 1⟩)
    ∧ ((_get_color none ⟨false, false, false, false, false, false⟩ "fill"
        ⟨[], 0⟩).1 = ⟨1, 1, 1, 1⟩) := by
  constructor
  · have h := C6_color_defaults (fun _ => ⟨0, 0, 0, 1⟩)
      ⟨false, false, false, false, false, false⟩ "label" ⟨[], 0⟩ rfl
    simpa using h.1
  · have h := C6_color_defaults (fun _ => ⟨0, 0, 0, 1⟩)
      ⟨false, false, false, false, false, false⟩ "fill" ⟨[], 0⟩ rfl
    simpa using h.1

/-- C7: cache determinism — a second `_get_color` call with the same role and
the same six interaction flags, with no intervening cache clear, returns the
identical RGBA and leaves the state unchanged (so the theme lookup is not
invoked again), and a single call invokes the theme lookup at most once. -/
theorem C7_cache_determinism (scheme : Option (String → Rgba)) (f : ColorFlags)
    (element : String) (st : ColorState) :
    ((_get_color scheme f element (_get_color scheme f element st).2).1 =
        (_get_color scheme f element st).1)
    ∧ ((_get_color scheme f element (_get_color scheme f element st).2).2 =
        (_get_color scheme f element st).2)
    ∧ ((_get_color scheme f element st).2.lookups ≤ st.lookups + 1) := by
  have h2 := get_color_hit scheme f element (_get_color scheme f element st).2
    (_get_color scheme f element st).1 (get_color_cached scheme f element st)
  refine ⟨by rw [h2], by rw [h2], ?_⟩
  cases h : (st.colors.find? (fun p => p.1 == color_key element f)).map Prod.snd with
  | some rgba => simp [_get_color, h]
  | none =>
    cases scheme <;> simp [_get_color, h]

/-- Helper: `pySplitDot` never returns the empty list (Python's `split`
always yields at least one segment). -/
lemma pySplitDot_ne_nil : ∀ l : List Char, pySplitDot l ≠ []
  | [] => by simp [pySplitDot]
  | c :: rest => by
    simp only [pySplitDot]
    split
    · simp
    · cases h : pySplitDot rest <;> simp

/-- Helper: the first segment of `pySplitDot` is the prefix of the input
before the first dot. -/
lemma pySplitDot_head (l : List Char) :
    (pySplitDot l).headD [] = l.takeWhile (fun c => c != '.') := by
  induction l with
  | nil => rfl
  | cons c rest ih =>
    by_cases hc : c = '.'
    · simp [pySplitDot, hc, List.takeWhile_cons]
    · cases h : pySplitDot rest with
      | nil => exact absurd h (pySplitDot_ne_nil rest)
      | cons x xs =>
        have h2 : pySplitDot (c :: rest) = (c :: x) :: xs := by
          simp [pySplitDot, hc, h]
        rw [h2]
        simp [List.takeWhile_cons, hc, ← ih, h]

/-- C8 counterexample: the claim says the stored theme id always contains a
`'.'`, but `set_id` on the dot-free id `"DELE"` (the source's own docstring
example id) stores `"DELE"` itself as the theme id, which contains no
`'.'`. -/
theorem C8_counterexample :
    (set_id "DELE").1 = "DELE" ∧ ¬ ('.' ∈ (set_id "DELE").1.toList) := by
  exact ⟨rfl, by decide⟩

/-- C8 (amended): for every id string assigned via `set_id`, the stored
identity is the prefix of the string before its first `'.'` and never
contains a `'.'`; the stored theme id is the input string itself, so its
prefix before the first `'.'` is always the identity, but it contains a
`'.'` only when the input does. -/
theorem C8_amended_id_invariants (value : String) :
    (set_id value).1 = value
    ∧ ('.' ∉ (set_id value).2.toList)
    ∧ (set_id ((set_id value).1)).2 = (set_id value).2 := by
  refine ⟨rfl, ?_, rfl⟩
  intro hmem
  have heq : (set_id value).2.toList = (pySplitDot value.toList).headD [] := rfl
  rw [heq, pySplitDot_head] at hmem
  have := List.mem_takeWhile_imp hmem
  simp at this

/-- C9: `StickyBehavior.from_string` maps the four recognized tokens to the
corresponding enum values; every unrecognized token misses the dict, and the
assignment site turns that miss into a typed `ConfigurationError`, never a
silent default. -/
theorem C9_sticky_behavior (s : String)
    (h1 : s ≠ "cycle") (h2 : s ≠ "dblclick") (h3 : s ≠ "latch") (h4 : s ≠ "lock") :
    StickyBehavior.from_string "cycle" = some StickyBehavior.CYCLE
    ∧ StickyBehavior.from_string "dblclick" = some StickyBehavior.DOUBLE_CLICK
    ∧ StickyBehavior.from_string "latch" = some StickyBehavior.LATCH_ONLY
    ∧ StickyBehavior.from_string "lock" = some StickyBehavior.LOCK_ONLY
    ∧ StickyBehavior.from_string s = none
    ∧ assign_sticky_behavior s =
        Except.error (ConfigurationError.invalid_sticky_behavior s) := by
  have e1 : ("cycle" == s) = false := beq_eq_false_iff_ne.mpr (Ne.symm h1)
  have e2 : ("dblclick" == s) = false := beq_eq_false_iff_ne.mpr (Ne.symm h2)
  have e3 : ("latch" == s) = false := beq_eq_false_iff_ne.mpr (Ne.symm h3)
  have e4 : ("lock" == s) = false := beq_eq_false_iff_ne.mpr (Ne.symm h4)
  have hmiss : StickyBehavior.from_string s = none := by
    simp [StickyBehavior.from_string, StickyBehavior.values, List.find?,
          e1, e2, e3, e4]
  exact ⟨rfl, rfl, rfl, rfl, hmiss, by simp [assign_sticky_behavior, hmiss]⟩

/-- C9 witness: a concrete unrecognized token fails with the typed error. -/
theorem C9_sticky_behavior_witness :
    assign_sticky_behavior "sticky" =
      Except.error (ConfigurationError.invalid_sticky_behavior "sticky") :=
  (C9_sticky_behavior "sticky" (by decide) (by decide) (by decide)
    (by decide)).2.2.2.2.2

/-- C10: `get_layer_index` succeeds only on ids starting with `"layer"`
(else the assert fires), and even then only when the suffix after `"layer"`
is a valid integer numeral: any non-empty all-digit suffix succeeds, while
`"layer"` (empty suffix) and `"layerA"` make the `int()` conversion fail. -/
theorem C10_layer_index (id : String) (suffix : List Char) (n : Int) :
    (get_layer_index id = Except.ok n → is_layer_button id = true)
    ∧ (suffix ≠ [] → suffix.all Char.isDigit = true →
        ∃ m : Int, get_layer_index (String.mk ("layer".toList ++ suffix)) =
          Except.ok m)
    ∧ get_layer_index "layer" = Except.error LayerIndexError.value_error
    ∧ get_layer_index "layerA" = Except.error LayerIndexError.value_error
    ∧ get_layer_index "ABCD" = Except.error LayerIndexError.contract_violation
    ∧ get_layer_index "layer3" = Except.ok 3 := by
  refine ⟨?_, ?_, rfl, rfl, rfl, rfl⟩
  · intro h
    by_cases hb : is_layer_button id
    · exact hb
    · simp [get_layer_index, hb] at h
  · intro hne hdig
    obtain ⟨c, cs, rfl⟩ : ∃ c cs, suffix = c :: cs := by
      cases suffix with
      | nil => exact absurd rfl hne
      | cons c cs => exact ⟨c, cs, rfl⟩
    have hc : c.isDigit = true := by
      simp only [List.all_cons, Bool.and_eq_true] at hdig
      exact hdig.1
    have hcp : c ≠ '+' := by rintro rfl; simp [Char.isDigit] at hc
    have hcm : c ≠ '-' := by rintro rfl; simp [Char.isDigit] at hc
    have hbtn : is_layer_button
        (String.mk ('l' :: 'a' :: 'y' :: 'e' :: 'r' :: c :: cs)) = true := rfl
    have hdrop : (String.mk ("layer".toList ++ c :: cs)).toList.drop 5 = c :: cs := by
      have h5 : ("layer".toList).length = 5 := rfl
      exact List.drop_left' h5
    have hpy : python_int (String.mk (c :: cs)) = digits_to_int (c :: cs) := by
      simp [python_int, hcp, hcm]
    have hd : digits_to_int (c :: cs) =
        some (((c :: cs).foldl (fun a ch => a * 10 + (ch.toNat - '0'.toNat)) 0 :
          Nat) : Int) := by
      simp [digits_to_int, hdig]
    refine ⟨(((c :: cs).foldl (fun a ch => a * 10 + (ch.toNat - '0'.toNat)) 0 :
      Nat) : Int), ?_⟩
    simp [get_layer_index, hbtn, hdrop, hpy, hd]

/-- C10 witness: the id `"layer3"` passes the assert and converts to an
integer index. -/
theorem C10_layer_index_witness :
    is_layer_button "layer3" = true
    ∧ (∃ m : Int, get_layer_index (String.mk ("layer".toList ++ ['3'])) =
        Except.ok m) :=
  ⟨(C10_layer_index "layer3" ['3'] 3).1 rfl,
   (C10_layer_index "layer3" ['3'] 3).2.1 (by decide) (by decide)⟩

end ChordKey
